import Mathlib

/-!
Shallow embedding of `src/dendrite/async_api/_core/mixin/get_element.py`, the
element-retrieval core of the dendrite SDK.

The external collaborators (page driver, selector-cache service, discovery
service) are modelled by an environment: for each attempt of the backoff loop
it supplies the duration of the resolution request, the server's response and
the live page, the latter as a map from selector strings to the list of
element handles currently matching that selector.  Wall-clock time is an
explicit rational clock advanced by the durations the environment prescribes;
`asyncio.sleep d` advances it by exactly `d`, and local bookkeeping takes no
time.  Every external call the code performs is recorded in an event trace,
together with instrumentation events marking the budget handed to each tier.
Exceptions raised by the cache probe's network call are modelled with
`Except Unit`; the Python source contains no try/except, so the monadic bind
in the orchestrator propagates the error exactly as Python does.
-/

/-- Status field of the discovery service's response (`res.status` in the
source): `success`, `failure` or `impossible`. -/
inductive Status where
  | success
  | failure
  | impossible
deriving DecidableEq

/-- `res.selectors`: either a mapping field-name to candidate selector lists
(Python dict, insertion-ordered, modelled as an association list) or a flat
ordered list of candidate selectors. -/
inductive Selectors where
  | dict (fields : List (String × List String))
  | list (sels : List String)
deriving DecidableEq

/-- The discovery/cache service response consumed by one attempt. -/
structure GetElementResponse where
  status : Status
  selectors : Selectors
deriving DecidableEq

/-- An opaque live-element handle (`AsyncElement`); identity is all the core
uses, so a natural number suffices. -/
abbrev Element := Nat

/-- The value `_get_element` / the assembler produce: a single element, a list
of elements, a named-field collection (`AsyncElementsResponse`), or Python's
`None`. -/
inductive RetrievalOutcome where
  | one (e : Element)
  | many (es : List Element)
  | fields (m : List (String × Element))
  | notFound
deriving DecidableEq

/-- Externally observable events of a run: the cache-probe round trip, a
resolution request (with its `use_cache`/`force_use_cache` flag), a page-driver
selector query, a timed sleep, and an instrumentation marker recording the
budget each tier's backoff loop is started with. -/
inductive Event where
  | probe
  | tierStart (only_use_cache : Bool) (budget : ℚ)
  | resolveReq (only_use_cache : Bool)
  | query (sel : String)
  | sleep (d : ℚ)
deriving DecidableEq

/-- Python truthiness of the values flowing through `if response:` and
`if res:` in the source.  `None` is falsy and a list is truthy iff non-empty
(Python semantics).  A bare `AsyncElement` handle is a plain object, hence
truthy.  The `AsyncElementsResponse` class is not part of the core file;
Modelled from the spec: an empty named-field collection counts as an empty
outcome ("If it yields empty (stale selectors), fall through"), so
`fields []` is falsy. -/
def truthy : RetrievalOutcome → Bool
  | .one _ => true
  | .many es => !es.isEmpty
  | .fields m => !m.isEmpty
  | .notFound => false

/-- One selector-resolution attempt of the external world: how long the page
snapshot plus resolution request takes, how long the assembler's page-driver
queries take in total, the service response, and the live page at assembly
time. -/
structure AttemptEnv where
  reqDur : ℚ
  asmDur : ℚ
  resp : GetElementResponse
  page : String → List Element

/-- The whole external world for one `_get_element` call: the probe's duration
and result (`Except.error` models the probe's network call raising), and the
per-attempt environments of the cache-tier and discovery-tier loops. -/
structure WorldEnv where
  probeDur : ℚ
  probeRes : Except Unit Bool
  envCache : Nat → AttemptEnv
  envDisc : Nat → AttemptEnv

/-- Inner loop shared by both branches of `get_elements_from_selectors`: walk
a candidate-selector list in the given order, query the page driver for each
selector, and stop at the first selector whose query returns at least one
element (`len(dendrite_elements) > 0`).  Returns the selectors queried, in
order, and the matching element list if any. -/
def try_selectors_in_order (page : String → List Element) :
    List String → List String × Option (List Element)
  | [] => ([], none)
  | s :: rest =>
    let dendrite_elements := page s
    if dendrite_elements.length > 0 then ([s], some dendrite_elements)
    else
      let (tr, r) := try_selectors_in_order page rest
      (s :: tr, r)

/-- Dict branch of `get_elements_from_selectors`: for each field in dict
order, try its selectors in the given order; on the first selector with a
match record `dendrite_elements[0]` for that field, otherwise leave the field
out of the result.  The matched list is non-empty by the `length > 0` guard,
so the `some []` case is unreachable. -/
def dict_fields_go (page : String → List Element) :
    List (String × List String) → List String × List (String × Element)
  | [] => ([], [])
  | (key, selectors) :: rest =>
    let (tr, r) := try_selectors_in_order page selectors
    let (tr2, m) := dict_fields_go page rest
    match r with
    | some (e :: _) => (tr ++ tr2, (key, e) :: m)
    | _ => (tr ++ tr2, m)

/-- `get_elements_from_selectors(obj, res, only_one)` (source lines 315-336),
given the live page.  Dict-shaped selectors always yield an
`AsyncElementsResponse(result)`; list-shaped selectors are walked with
`reversed(res.selectors)` and the first match returns `dendrite_elements[0]`
when `only_one` else the whole matched list; otherwise `None`.  First
component: the selectors queried on the page driver, in order. -/
def get_elements_from_selectors (page : String → List Element)
    (selectors : Selectors) (only_one : Bool) :
    List String × RetrievalOutcome :=
  match selectors with
  | .dict fields =>
    let (tr, result) := dict_fields_go page fields
    (tr, .fields result)
  | .list sels =>
    let (tr, r) := try_selectors_in_order page sels.reverse
    (tr,
      match r with
      | some (e :: es) => if only_one then .one e else .many (e :: es)
      | _ => .notFound)

/-- Python's two-argument `max`, as used in
`max(0, current_timeout - request_duration)`; written with an explicit
comparison so that it evaluates. -/
def pymax (a b : ℚ) : ℚ := if a ≤ b then b else a

/-- `TIMEOUT_INTERVAL: List[float] = [0.15, 0.45, 1.0, 2.0, 4.0, 8.0]`. -/
def TIMEOUT_INTERVAL : List ℚ := [15/100, 45/100, 1, 2, 4, 8]

/-- Body of the `for current_timeout in TIMEOUT_INTERVAL` loop of
`attempt_with_backoff` (source lines 268-312).  `elapsed` carries
`total_elapsed_time`, which in this model equals the wall clock since loop
start at the top of each iteration.  Returns the event trace, the wall-clock
time the loop consumed, and the loop's return value (`notFound` standing for
Python's `return None`).  The match keeps the source's dispatch: the
`impossible` check precedes the `success` check, and `failure` runs no
assembler; `cont` is the shared tail of an unsuccessful iteration — compute
`sleep_duration = max(0, current_timeout - request_duration)`, sleep, update
`total_elapsed_time`, continue with the next scheduled interval. -/
def backoff_go (env : Nat → AttemptEnv) (only_use_cache only_one : Bool)
    (remaining_timeout : ℚ) :
    List ℚ → Nat → ℚ → List Event × ℚ × RetrievalOutcome
  | [], _, elapsed => ([], elapsed, .notFound)
  | current_timeout :: rest, k, elapsed =>
    if remaining_timeout ≤ elapsed then ([], elapsed, .notFound)
    else
      let a := env k
      let cont := fun (asmTr : List Event) (asmDur : ℚ) =>
        let sleep_duration := pymax 0 (current_timeout - a.reqDur)
        let rec_result :=
          backoff_go env only_use_cache only_one remaining_timeout rest (k + 1)
            (elapsed + a.reqDur + asmDur + sleep_duration)
        (.resolveReq only_use_cache :: asmTr ++ .sleep sleep_duration :: rec_result.1,
          rec_result.2)
      match a.resp.status with
      | .impossible => ([.resolveReq only_use_cache], elapsed + a.reqDur, .notFound)
      | .success =>
        let asm := get_elements_from_selectors a.page a.resp.selectors only_one
        if truthy asm.2 then
          (.resolveReq only_use_cache :: asm.1.map Event.query,
            elapsed + a.reqDur + a.asmDur, asm.2)
        else cont (asm.1.map Event.query) a.asmDur
      | .failure => cont [] 0

/-- `attempt_with_backoff(obj, prompt, only_one, api_config, remaining_timeout,
only_use_cache)` (source lines 260-312): run the schedule from its head with
`total_elapsed_time = 0`. -/
def attempt_with_backoff (env : Nat → AttemptEnv) (only_one : Bool)
    (remaining_timeout : ℚ) (only_use_cache : Bool) :
    List Event × ℚ × RetrievalOutcome :=
  backoff_go env only_use_cache only_one remaining_timeout TIMEOUT_INTERVAL 0 0

/-- `CACHE_TIMEOUT = 5` (source line 16). -/
def CACHE_TIMEOUT : ℚ := 5

/-- `test_if_cache_available` (source lines 246-257): one page-information
fetch plus one `check_selector_cache` round trip, no try/except, returning
`cache_available.exists`.  The world decides the outcome; an error value is
the network call raising. -/
def test_if_cache_available (w : WorldEnv) : Except Unit Bool :=
  w.probeRes

/-- `_get_element` (source lines 173-243).  The probe is awaited
unconditionally before the `use_cache` test; a probe exception therefore
aborts the call (monadic bind).  If the probe reports a cached selector and
`use_cache` holds, the cache tier runs with the fixed `CACHE_TIMEOUT` budget;
whenever a tier's result is truthy it is returned, and the discovery tier's
budget is `timeout - (time.time() - start_time)`, i.e. the caller's timeout
minus everything elapsed so far.  The match on the awaited probe propagates a
probe exception unchanged, as the try/except-free source does.  Returns the
event trace and the value returned to the caller. -/
def _get_element (w : WorldEnv) (only_one use_cache : Bool) (timeout : ℚ) :
    Except Unit (List Event × RetrievalOutcome) :=
  match test_if_cache_available w with
  | .error e => .error e
  | .ok cache_available =>
    if cache_available && use_cache then
      let c := attempt_with_backoff w.envCache only_one CACHE_TIMEOUT true
      if truthy c.2.2 then
        .ok (Event.probe :: Event.tierStart true CACHE_TIMEOUT :: c.1, c.2.2)
      else
        let b2 := timeout - (w.probeDur + c.2.1)
        let d := attempt_with_backoff w.envDisc only_one b2 false
        if truthy d.2.2 then
          .ok (Event.probe :: Event.tierStart true CACHE_TIMEOUT :: c.1
            ++ Event.tierStart false b2 :: d.1, d.2.2)
        else
          .ok (Event.probe :: Event.tierStart true CACHE_TIMEOUT :: c.1
            ++ Event.tierStart false b2 :: d.1, .notFound)
    else
      let b2 := timeout - w.probeDur
      let d := attempt_with_backoff w.envDisc only_one b2 false
      if truthy d.2.2 then
        .ok (Event.probe :: Event.tierStart false b2 :: d.1, d.2.2)
      else
        .ok (Event.probe :: Event.tierStart false b2 :: d.1, .notFound)

/-- The value the caller of `_get_element` sees (trace stripped). -/
def getElementResult (w : WorldEnv) (only_one use_cache : Bool) (timeout : ℚ) :
    Except Unit RetrievalOutcome :=
  (_get_element w only_one use_cache timeout).map (·.2)

/-- An environment whose every resolution request comes back instantly with
status `failure`: both tiers miss on every attempt. -/
def envFail : Nat → AttemptEnv :=
  fun _ => ⟨0, 0, ⟨.failure, .list []⟩, fun _ => []⟩

/-- An environment whose first response already has status `impossible`. -/
def envImp : Nat → AttemptEnv :=
  fun _ => ⟨0, 0, ⟨.impossible, .list []⟩, fun _ => []⟩

/-- An environment answering `success` with a dict-shaped resolution none of
whose selectors matches anything on the page: a stale cache hit. -/
def envStale : Nat → AttemptEnv :=
  fun _ => ⟨0, 0, ⟨.success, .dict [("f", ["#x"])]⟩, fun _ => []⟩

/-- Number of resolution requests recorded in a trace. -/
def countResolveReqs (tr : List Event) : Nat :=
  tr.countP fun e => match e with | .resolveReq _ => true | _ => false

/-- A live page on which only the selector `"#a"` matches (two elements). -/
def pageOnlyA : String → List Element :=
  fun s => if s = "#a" then [1, 2] else []

/-- The live page of the spec's dict-shaped example: `"#n2"` and `"#e1"`
match, `"#n1"` does not. -/
def pageDictEx : String → List Element :=
  fun s => if s = "#n2" then [10] else if s = "#e1" then [20, 21] else []

/-- World with a one-second probe reporting no cached selector, both tiers
missing on every attempt. -/
def w1 : WorldEnv := ⟨1, .ok false, envFail, envFail⟩

/-- The trace of `_get_element w1 true false 10`. -/
def c1Trace : List Event :=
  [Event.probe, Event.tierStart false 9,
   Event.resolveReq false, Event.sleep (15/100),
   Event.resolveReq false, Event.sleep (45/100),
   Event.resolveReq false, Event.sleep 1,
   Event.resolveReq false, Event.sleep 2,
   Event.resolveReq false, Event.sleep 4,
   Event.resolveReq false, Event.sleep 8]

/-- World whose cache probe's network call raises. -/
def wErr : WorldEnv := ⟨0, .error (), envFail, envFail⟩

/-- World with a cached selector reported after a one-second probe, both
tiers missing on every attempt. -/
def w8 : WorldEnv := ⟨1, .ok true, envFail, envFail⟩

/-- World with an instantaneous probe reporting a cached selector, both
tiers missing on every attempt. -/
def w9 : WorldEnv := ⟨0, .ok true, envFail, envFail⟩

/-- Characterization of the shared selector walk: the selectors queried are
the non-matching ones up to and including the first matching one, in the
given order, and the result is the element list of the first matching
selector, if any. -/
theorem try_selectors_in_order_eq (page : String → List Element) :
    ∀ l : List String,
      try_selectors_in_order page l =
        (l.takeWhile (fun s => (page s).isEmpty) ++
          (l.find? fun s => !(page s).isEmpty).toList,
         (l.find? fun s => !(page s).isEmpty).map page) := by
  intro l
  induction l with
  | nil => simp [try_selectors_in_order]
  | cons s rest ih =>
    cases hp : page s with
    | nil =>
      simp [try_selectors_in_order, hp, ih, List.takeWhile_cons, List.find?_cons]
    | cons e es =>
      simp [try_selectors_in_order, hp, List.takeWhile_cons, List.find?_cons]

/-- Characterization of the dict branch walk: the queried selectors are the
fields' walks concatenated in dict order, and each field is bound to the head
of the element list of its first matching selector, unmatched fields being
dropped. -/
theorem dict_fields_go_eq (page : String → List Element) :
    ∀ fl : List (String × List String),
      dict_fields_go page fl =
        (fl.flatMap (fun kv => kv.2.takeWhile (fun s => (page s).isEmpty) ++
            (kv.2.find? fun s => !(page s).isEmpty).toList),
         fl.filterMap fun kv =>
           (((kv.2.find? fun s => !(page s).isEmpty).map page).bind List.head?).map
             fun e => (kv.1, e)) := by
  intro fl
  induction fl with
  | nil => simp [dict_fields_go]
  | cons kv rest ih =>
    obtain ⟨key, selectors⟩ := kv
    cases hf : selectors.find? fun s => !(page s).isEmpty with
    | none =>
      simp [dict_fields_go, try_selectors_in_order_eq, ih, hf]
    | some s =>
      cases hp : page s with
      | nil =>
        simp [dict_fields_go, try_selectors_in_order_eq, ih, hf, hp]
      | cons e es =>
        simp [dict_fields_go, try_selectors_in_order_eq, ih, hf, hp]

/-- C6: for a list-shaped resolution the assembler queries the candidate
selectors in reverse order, stopping at the first (rightmost) selector with a
live match; it returns that selector's first element when `only_one` and the
whole matched list otherwise, and not-found when no selector matches.  On
the page where only `"#a"` matches, selectors `["#a", "#b", "#c"]` are tried
as `"#c"`, `"#b"`, `"#a"` and the elements of `"#a"` are returned. -/
theorem c6_list_branch_reverse_first_match :
    (∀ (page : String → List Element) (only_one : Bool) (sels : List String),
      get_elements_from_selectors page (.list sels) only_one =
        (sels.reverse.takeWhile (fun s => (page s).isEmpty) ++
          (sels.reverse.find? fun s => !(page s).isEmpty).toList,
         match (sels.reverse.find? fun s => !(page s).isEmpty).map page with
         | some (e :: es) => if only_one then .one e else .many (e :: es)
         | _ => .notFound)) ∧
    get_elements_from_selectors pageOnlyA (.list ["#a", "#b", "#c"]) true =
      (["#c", "#b", "#a"], .one 1) ∧
    get_elements_from_selectors pageOnlyA (.list ["#a", "#b", "#c"]) false =
      (["#c", "#b", "#a"], .many [1, 2]) := by
  refine ⟨fun page only_one sels => ?_, ?_, ?_⟩
  · simp only [get_elements_from_selectors, try_selectors_in_order_eq]
  · rfl
  · rfl

/-- C7: for a dict-shaped resolution the assembler handles each field
independently, walking its selectors in the given order, binding the field to
the first element of the first selector with a live match and querying no
further selectors for that field; unmatched fields are left out.  On the
example page, `{"name": ["#n1","#n2"], "email": ["#e1"]}` binds `name` to the
element of `"#n2"` and `email` to the element of `"#e1"`, querying
`"#n1", "#n2", "#e1"`. -/
theorem c7_dict_branch_first_match_per_field :
    (∀ (page : String → List Element) (fl : List (String × List String))
        (only_one : Bool),
      get_elements_from_selectors page (.dict fl) only_one =
        (fl.flatMap (fun kv => kv.2.takeWhile (fun s => (page s).isEmpty) ++
            (kv.2.find? fun s => !(page s).isEmpty).toList),
         .fields (fl.filterMap fun kv =>
           (((kv.2.find? fun s => !(page s).isEmpty).map page).bind List.head?).map
             fun e => (kv.1, e)))) ∧
    get_elements_from_selectors pageDictEx
        (.dict [("name", ["#n1", "#n2"]), ("email", ["#e1"])]) false =
      (["#n1", "#n2", "#e1"], .fields [("name", 10), ("email", 20)]) := by
  refine ⟨fun page fl only_one => ?_, ?_⟩
  · simp only [get_elements_from_selectors, dict_fields_go_eq]
  · rfl

/-- C10: the dict branch of the assembler always produces a named-field
collection, possibly with zero fields, and never the not-found value; a
not-found outcome can only come from the list branch. -/
theorem c10_dict_branch_never_notFound :
    (∀ (page : String → List Element) (fl : List (String × List String))
        (only_one : Bool),
      ∃ m, (get_elements_from_selectors page (.dict fl) only_one).2 = .fields m) ∧
    (∀ (page : String → List Element) (sel : Selectors) (only_one : Bool),
      (get_elements_from_selectors page sel only_one).2 = .notFound →
        ∃ l, sel = .list l) := by
  constructor
  · intro page fl only_one
    exact ⟨(dict_fields_go page fl).2, rfl⟩
  · intro page sel only_one h
    cases sel with
    | dict fl => simp [get_elements_from_selectors] at h
    | list l => exact ⟨l, rfl⟩

/-- Loop step, timeout case: with the budget already consumed at the top of
an iteration, the loop returns not-found at once. -/
theorem backoff_step_timeout (env : Nat → AttemptEnv) (c o : Bool)
    (b ct elapsed : ℚ) (rest : List ℚ) (k : Nat) (hb : b ≤ elapsed) :
    backoff_go env c o b (ct :: rest) k elapsed = ([], elapsed, .notFound) := by
  rw [backoff_go, if_pos hb]

/-- Loop step, `impossible` case: one request, no sleep, immediate
not-found. -/
theorem backoff_step_impossible (env : Nat → AttemptEnv) (c o : Bool)
    (b ct elapsed : ℚ) (rest : List ℚ) (k : Nat) (hb : ¬ b ≤ elapsed)
    (hs : (env k).resp.status = .impossible) :
    backoff_go env c o b (ct :: rest) k elapsed =
      ([.resolveReq c], elapsed + (env k).reqDur, .notFound) := by
  rw [backoff_go, if_neg hb]
  simp only [hs]

/-- Loop step, `success` case with a truthy assembled outcome: the outcome is
returned at once. -/
theorem backoff_step_success_hit (env : Nat → AttemptEnv) (c o : Bool)
    (b ct elapsed : ℚ) (rest : List ℚ) (k : Nat) (hb : ¬ b ≤ elapsed)
    (hs : (env k).resp.status = .success)
    (ht : truthy (get_elements_from_selectors (env k).page (env k).resp.selectors o).2
      = true) :
    backoff_go env c o b (ct :: rest) k elapsed =
      (.resolveReq c ::
          ((get_elements_from_selectors (env k).page (env k).resp.selectors o).1.map
            Event.query),
        elapsed + (env k).reqDur + (env k).asmDur,
        (get_elements_from_selectors (env k).page (env k).resp.selectors o).2) := by
  rw [backoff_go, if_neg hb]
  simp only [hs, ht, if_true]

/-- Loop step, `success` case with an empty (stale) outcome: no return; the
scheduled sleep happens and the loop continues with the next interval. -/
theorem backoff_step_success_stale (env : Nat → AttemptEnv) (c o : Bool)
    (b ct elapsed : ℚ) (rest : List ℚ) (k : Nat) (hb : ¬ b ≤ elapsed)
    (hs : (env k).resp.status = .success)
    (ht : truthy (get_elements_from_selectors (env k).page (env k).resp.selectors o).2
      = false) :
    backoff_go env c o b (ct :: rest) k elapsed =
      (.resolveReq c ::
          ((get_elements_from_selectors (env k).page (env k).resp.selectors o).1.map
            Event.query) ++
          .sleep (pymax 0 (ct - (env k).reqDur)) ::
          (backoff_go env c o b rest (k + 1)
            (elapsed + (env k).reqDur + (env k).asmDur +
              pymax 0 (ct - (env k).reqDur))).1,
        (backoff_go env c o b rest (k + 1)
          (elapsed + (env k).reqDur + (env k).asmDur +
            pymax 0 (ct - (env k).reqDur))).2) := by
  rw [backoff_go, if_neg hb]
  simp only [hs, ht, if_false, Bool.false_eq_true]

/-- Loop step, `failure` case: no assembler runs; the scheduled sleep happens
and the loop continues with the next interval. -/
theorem backoff_step_failure (env : Nat → AttemptEnv) (c o : Bool)
    (b ct elapsed : ℚ) (rest : List ℚ) (k : Nat) (hb : ¬ b ≤ elapsed)
    (hs : (env k).resp.status = .failure) :
    backoff_go env c o b (ct :: rest) k elapsed =
      (.resolveReq c ::
          .sleep (pymax 0 (ct - (env k).reqDur)) ::
          (backoff_go env c o b rest (k + 1)
            (elapsed + (env k).reqDur + 0 + pymax 0 (ct - (env k).reqDur))).1,
        (backoff_go env c o b rest (k + 1)
          (elapsed + (env k).reqDur + 0 + pymax 0 (ct - (env k).reqDur))).2) := by
  rw [backoff_go, if_neg hb]
  simp only [hs]
  rfl

/-- C2: a resolution response with status `impossible` makes the backoff loop
return not-found at once — the trace of the iteration is the single
resolution request, with no sleep and no further request, whatever the
remaining budget and the position in the schedule. -/
theorem c2_impossible_is_terminal (env : Nat → AttemptEnv) (c o : Bool)
    (b ct elapsed : ℚ) (rest : List ℚ) (k : Nat)
    (hbudget : elapsed < b)
    (himp : (env k).resp.status = .impossible) :
    backoff_go env c o b (ct :: rest) k elapsed =
      ([.resolveReq c], elapsed + (env k).reqDur, .notFound) :=
  backoff_step_impossible env c o b ct elapsed rest k (not_le.mpr hbudget) himp

/-- C2 witness: a concrete environment whose first response is `impossible`
stops the loop after exactly one request. -/
theorem c2_witness :
    (0 : ℚ) < 1 ∧ (envImp 0).resp.status = .impossible ∧
      backoff_go envImp true true 1 [2] 0 0 =
        ([.resolveReq true], 0, .notFound) := by
  refine ⟨by norm_num, rfl, ?_⟩
  have h := c2_impossible_is_terminal envImp true true 1 2 0 [] 0 (by norm_num) rfl
  simpa [envImp] using h

/-- C3: a `success` response whose assembled outcome is empty is not
terminal: the loop emits the scheduled sleep and proceeds to the next
interval — for list-shaped and dict-shaped resolutions alike, since the
environment is arbitrary. -/
theorem c3_stale_success_continues (env : Nat → AttemptEnv) (c o : Bool)
    (b ct elapsed : ℚ) (rest : List ℚ) (k : Nat)
    (hbudget : elapsed < b)
    (hsucc : (env k).resp.status = .success)
    (hstale :
      truthy (get_elements_from_selectors (env k).page (env k).resp.selectors o).2
        = false) :
    backoff_go env c o b (ct :: rest) k elapsed =
      (.resolveReq c ::
          ((get_elements_from_selectors (env k).page (env k).resp.selectors o).1.map
            Event.query) ++
          .sleep (pymax 0 (ct - (env k).reqDur)) ::
          (backoff_go env c o b rest (k + 1)
            (elapsed + (env k).reqDur + (env k).asmDur +
              pymax 0 (ct - (env k).reqDur))).1,
        (backoff_go env c o b rest (k + 1)
          (elapsed + (env k).reqDur + (env k).asmDur +
            pymax 0 (ct - (env k).reqDur))).2) :=
  backoff_step_success_stale env c o b ct elapsed rest k (not_le.mpr hbudget) hsucc hstale

/-- C3 witness: a concrete stale `success` (dict-shaped, no live match) falls
through to the sleep and exhausts the schedule instead of returning. -/
theorem c3_witness :
    (0 : ℚ) < 1 ∧ (envStale 0).resp.status = .success ∧
      truthy (get_elements_from_selectors (envStale 0).page
        (envStale 0).resp.selectors true).2 = false ∧
      backoff_go envStale true true 1 [2] 0 0 =
        ([.resolveReq true, .query "#x", .sleep 2], 2, .notFound) := by
  refine ⟨by norm_num, rfl, rfl, ?_⟩
  have h := c3_stale_success_continues envStale true true 1 2 0 [] 0 (by norm_num) rfl rfl
  rw [h]
  norm_num [envStale, backoff_go, pymax, get_elements_from_selectors, dict_fields_go,
    try_selectors_in_order]

/-- C4 counterexample: with a remaining budget of 0.3 s, a negligible
(zero) request duration and every response a miss, the loop issues TWO
resolution requests, not one: after attempt 1 the elapsed time is only
0.15 s < 0.3 s, so the pre-attempt check lets attempt 2 through; the loop
aborts before attempt 3, when 0.6 s ≥ 0.3 s. -/
theorem c4_counterexample :
    countResolveReqs (attempt_with_backoff envFail true (3/10) false).1 = 2 ∧
    countResolveReqs (attempt_with_backoff envFail true (3/10) false).1 ≠ 1 ∧
    (attempt_with_backoff envFail true (3/10) false).2.2 = .notFound := by
  have h : attempt_with_backoff envFail true (3/10) false =
      ([.resolveReq false, .sleep (15/100), .resolveReq false, .sleep (45/100)],
        3/5, .notFound) := by
    norm_num [attempt_with_backoff, backoff_go, TIMEOUT_INTERVAL, envFail, truthy, pymax]
  rw [h]
  norm_num [countResolveReqs]

/-- C4 (amended): with remaining budget 0.3 s, the standard schedule,
negligible request durations and miss responses, the loop issues exactly two
resolution requests (attempts 1 and 2) before returning not-found: the loop
aborts before an attempt only when elapsed ≥ budget, and elapsed is 0.15 s
after attempt 1 but 0.6 s after attempt 2. -/
theorem c4_two_attempts_fit_budget (env : Nat → AttemptEnv) (c o : Bool)
    (hreq0 : (env 0).reqDur = 0) (hreq1 : (env 1).reqDur = 0)
    (hfail0 : (env 0).resp.status = .failure)
    (hfail1 : (env 1).resp.status = .failure) :
    countResolveReqs (attempt_with_backoff env o (3/10) c).1 = 2 ∧
    (attempt_with_backoff env o (3/10) c).2.2 = .notFound := by
  rw [attempt_with_backoff, TIMEOUT_INTERVAL]
  rw [backoff_step_failure env c o _ _ _ _ _ (by norm_num) hfail0]
  rw [hreq0]
  have h1 : pymax 0 (15/100 - 0 : ℚ) = 15/100 := by norm_num [pymax]
  rw [h1]
  have e1 : (0 : ℚ) + 0 + 0 + 15/100 = 15/100 := by norm_num
  rw [e1]
  rw [backoff_step_failure env c o _ _ _ _ _ (by norm_num) hfail1]
  rw [hreq1]
  have h2 : pymax 0 (45/100 - 0 : ℚ) = 45/100 := by norm_num [pymax]
  rw [h2]
  have e2 : (15/100 : ℚ) + 0 + 0 + 45/100 = 3/5 := by norm_num
  rw [e2]
  rw [backoff_step_timeout env c o _ _ _ _ _ (by norm_num)]
  norm_num [countResolveReqs]

/-- C4 witness: the amended two-attempt behaviour on a concrete all-miss
environment. -/
theorem c4_witness :
    (envFail 0).reqDur = 0 ∧ (envFail 1).reqDur = 0 ∧
    (envFail 0).resp.status = .failure ∧ (envFail 1).resp.status = .failure ∧
    countResolveReqs (attempt_with_backoff envFail true (3/10) false).1 = 2 ∧
    (attempt_with_backoff envFail true (3/10) false).2.2 = .notFound := by
  have h := c4_two_attempts_fit_budget envFail false true rfl rfl rfl rfl
  exact ⟨rfl, rfl, rfl, rfl, h.1, h.2⟩

/-- The loop never hands back a falsy outcome other than not-found: its
return value is either `notFound` (Python `None`) or a truthy assembled
outcome. -/
theorem backoff_go_result_shape (env : Nat → AttemptEnv) (c o : Bool) (b : ℚ) :
    ∀ (sched : List ℚ) (k : Nat) (elapsed : ℚ),
      (backoff_go env c o b sched k elapsed).2.2 = .notFound ∨
        truthy (backoff_go env c o b sched k elapsed).2.2 = true := by
  intro sched
  induction sched with
  | nil => intro k el; left; rfl
  | cons ct rest ih =>
    intro k el
    by_cases hb : b ≤ el
    · rw [backoff_step_timeout env c o b ct el rest k hb]; left; rfl
    · cases hs : (env k).resp.status with
      | impossible =>
        rw [backoff_step_impossible env c o b ct el rest k hb hs]; left; rfl
      | failure =>
        rw [backoff_step_failure env c o b ct el rest k hb hs]
        exact ih (k + 1) _
      | success =>
        cases ht : truthy
            (get_elements_from_selectors (env k).page (env k).resp.selectors o).2 with
        | false =>
          rw [backoff_step_success_stale env c o b ct el rest k hb hs ht]
          exact ih (k + 1) _
        | true =>
          rw [backoff_step_success_hit env c o b ct el rest k hb hs ht]
          right; exact ht

/-- Every event the loop records is a resolution request carrying the loop's
own cache flag, a page-driver query, or a sleep — in particular a
`false`-flagged (discovery) loop performs no cache-flagged request and
starts no tier. -/
theorem backoff_go_events_shape (env : Nat → AttemptEnv) (c o : Bool) (b : ℚ) :
    ∀ (sched : List ℚ) (k : Nat) (elapsed : ℚ) (e : Event),
      e ∈ (backoff_go env c o b sched k elapsed).1 →
        e = .resolveReq c ∨ (∃ s, e = .query s) ∨ ∃ d, e = .sleep d := by
  intro sched
  induction sched with
  | nil => intro k el e he; simp [backoff_go] at he
  | cons ct rest ih =>
    intro k el e he
    by_cases hb : b ≤ el
    · rw [backoff_step_timeout env c o b ct el rest k hb] at he
      simp at he
    · cases hs : (env k).resp.status with
      | impossible =>
        rw [backoff_step_impossible env c o b ct el rest k hb hs] at he
        simp at he
        left; exact he
      | failure =>
        rw [backoff_step_failure env c o b ct el rest k hb hs] at he
        simp only [List.mem_cons] at he
        rcases he with h | h | h
        · left; exact h
        · right; right; exact ⟨_, h⟩
        · exact ih (k + 1) _ e h
      | success =>
        cases ht : truthy
            (get_elements_from_selectors (env k).page (env k).resp.selectors o).2 with
        | true =>
          rw [backoff_step_success_hit env c o b ct el rest k hb hs ht] at he
          simp only [List.mem_cons, List.mem_map] at he
          rcases he with h | ⟨s, -, h⟩
          · left; exact h
          · right; left; exact ⟨s, h.symm⟩
        | false =>
          rw [backoff_step_success_stale env c o b ct el rest k hb hs ht] at he
          simp only [List.mem_cons, List.mem_append, List.mem_map] at he
          rcases he with (h | ⟨s, -, h⟩) | h | h
          · left; exact h
          · right; left; exact ⟨s, h.symm⟩
          · right; right; exact ⟨_, h⟩
          · exact ih (k + 1) _ e h

/-- Against an environment all of whose responses have status `failure`, the
loop returns not-found whatever the budget, the schedule suffix and the
elapsed time. -/
theorem backoff_go_all_failure (env : Nat → AttemptEnv) (c o : Bool) (b : ℚ)
    (hfail : ∀ k, (env k).resp.status = .failure) :
    ∀ (sched : List ℚ) (k : Nat) (elapsed : ℚ),
      (backoff_go env c o b sched k elapsed).2.2 = .notFound := by
  intro sched
  induction sched with
  | nil => intro k el; rfl
  | cons ct rest ih =>
    intro k el
    by_cases hb : b ≤ el
    · rw [backoff_step_timeout env c o b ct el rest k hb]
    · rw [backoff_step_failure env c o b ct el rest k hb (hfail k)]
      exact ih (k + 1) _

/-- `attempt_with_backoff` instance of the result-shape lemma. -/
theorem attempt_result_shape (env : Nat → AttemptEnv) (o c : Bool) (b : ℚ) :
    (attempt_with_backoff env o b c).2.2 = .notFound ∨
      truthy (attempt_with_backoff env o b c).2.2 = true :=
  backoff_go_result_shape env c o b TIMEOUT_INTERVAL 0 0

/-- `attempt_with_backoff` instance of the event-shape lemma. -/
theorem attempt_events_shape (env : Nat → AttemptEnv) (o c : Bool) (b : ℚ)
    (e : Event) (he : e ∈ (attempt_with_backoff env o b c).1) :
    e = .resolveReq c ∨ (∃ s, e = .query s) ∨ ∃ d, e = .sleep d :=
  backoff_go_events_shape env c o b TIMEOUT_INTERVAL 0 0 e he

/-- C5 counterexample: a world whose cache probe's network call raises.  The
call does not fall through to the discovery tier with "cache not available";
it surfaces the exception to the caller. -/
theorem c5_counterexample : _get_element wErr true true 15 = .error () := rfl

/-- C5 (amended): the probe performs no retries, but a transient probe
failure is not absorbed: `test_if_cache_available` has no exception handler,
so the exception propagates out of `_get_element` and the discovery tier is
never reached. -/
theorem c5_probe_error_propagates (w : WorldEnv) (only_one use_cache : Bool)
    (timeout : ℚ) (herr : w.probeRes = .error ()) :
    _get_element w only_one use_cache timeout = .error () := by
  simp only [_get_element, test_if_cache_available, herr]

/-- C5 witness: the amended propagation behaviour at a concrete world. -/
theorem c5_witness :
    wErr.probeRes = .error () ∧ _get_element wErr false false 3 = .error () :=
  ⟨rfl, c5_probe_error_propagates wErr false false 3 rfl⟩

/-- C1 counterexample: with `use_cache = false`, a 1-second probe and a
10-second timeout, the run's trace does contain the cache-probe round trip,
and the discovery tier is started with budget 9 = 10 - 1, not the full
nominal 10. -/
theorem c1_counterexample :
    _get_element w1 true false 10 = .ok (c1Trace, .notFound) ∧
    Event.probe ∈ c1Trace ∧
    Event.tierStart false 9 ∈ c1Trace ∧
    Event.tierStart false 10 ∉ c1Trace := by
  refine ⟨?_, by norm_num [c1Trace], by norm_num [c1Trace], ?_⟩
  · norm_num [_get_element, test_if_cache_available, w1, c1Trace, envFail,
      attempt_with_backoff, backoff_go, TIMEOUT_INTERVAL, truthy, pymax]
  · norm_num [c1Trace]
    exact ⟨nofun, nofun, nofun, nofun, nofun, nofun, nofun, nofun, nofun, nofun,
      nofun, nofun, nofun⟩

/-- C1 (amended): with `use_cache = false` the probe round trip is still
performed (its result is ignored), the cache tier is never entered — the
trace holds no cache-flagged resolution request and no cache tier start —
and the discovery loop receives budget `timeout - probe elapsed`, not the
full nominal timeout. -/
theorem c1_probe_always_runs (w : WorldEnv) (o bres : Bool) (t : ℚ)
    (hprobe : w.probeRes = .ok bres) :
    _get_element w o false t =
      .ok (Event.probe :: Event.tierStart false (t - w.probeDur) ::
            (attempt_with_backoff w.envDisc o (t - w.probeDur) false).1,
          (attempt_with_backoff w.envDisc o (t - w.probeDur) false).2.2) ∧
    Event.resolveReq true ∉
      (Event.probe :: Event.tierStart false (t - w.probeDur) ::
        (attempt_with_backoff w.envDisc o (t - w.probeDur) false).1) ∧
    Event.tierStart true CACHE_TIMEOUT ∉
      (Event.probe :: Event.tierStart false (t - w.probeDur) ::
        (attempt_with_backoff w.envDisc o (t - w.probeDur) false).1) := by
  refine ⟨?_, ?_, ?_⟩
  · simp only [_get_element, test_if_cache_available, hprobe, Bool.and_false,
      Bool.false_eq_true, if_false]
    rcases attempt_result_shape w.envDisc o false (t - w.probeDur) with h | h
    · rw [h]; simp [truthy]
    · rw [if_pos h]
  · intro hmem
    simp only [List.mem_cons] at hmem
    rcases hmem with h | h | h
    · exact absurd h (by simp)
    · exact absurd h (by simp)
    · rcases attempt_events_shape w.envDisc o false (t - w.probeDur) _ h with
        h1 | ⟨s, h1⟩ | ⟨d, h1⟩ <;> simp at h1
  · intro hmem
    simp only [List.mem_cons] at hmem
    rcases hmem with h | h | h
    · exact absurd h (by simp)
    · exact absurd h (by simp)
    · rcases attempt_events_shape w.envDisc o false (t - w.probeDur) _ h with
        h1 | ⟨s, h1⟩ | ⟨d, h1⟩ <;> simp at h1

/-- C1 witness: the amended behaviour at a concrete world with a 1-second
probe. -/
theorem c1_witness :
    w1.probeRes = .ok false ∧
    (_get_element w1 true false 10 =
      .ok (Event.probe :: Event.tierStart false (10 - w1.probeDur) ::
            (attempt_with_backoff w1.envDisc true (10 - w1.probeDur) false).1,
          (attempt_with_backoff w1.envDisc true (10 - w1.probeDur) false).2.2) ∧
    Event.resolveReq true ∉
      (Event.probe :: Event.tierStart false (10 - w1.probeDur) ::
        (attempt_with_backoff w1.envDisc true (10 - w1.probeDur) false).1) ∧
    Event.tierStart true CACHE_TIMEOUT ∉
      (Event.probe :: Event.tierStart false (10 - w1.probeDur) ::
        (attempt_with_backoff w1.envDisc true (10 - w1.probeDur) false).1)) :=
  ⟨rfl, c1_probe_always_runs w1 true false 10 rfl⟩

/-- C8: when the cache path is entered (probe reports a hit and
`use_cache = true`), the cache-tier loop is started with the fixed
`CACHE_TIMEOUT = 5` sub-budget — a constant, independent of the caller's
timeout — and when the cache tier fails, the discovery-tier loop is started
with budget `timeout - (probe time + cache-tier time)`: the budget is only
ever reduced between tiers, never replenished. -/
theorem c8_tier_budgets (w : WorldEnv) (o : Bool) (t : ℚ)
    (hprobe : w.probeRes = .ok true) :
    CACHE_TIMEOUT = 5 ∧
    ∃ tr r, _get_element w o true t = .ok (tr, r) ∧
      Event.tierStart true CACHE_TIMEOUT ∈ tr ∧
      (truthy (attempt_with_backoff w.envCache o CACHE_TIMEOUT true).2.2 = false →
        Event.tierStart false
          (t - (w.probeDur + (attempt_with_backoff w.envCache o CACHE_TIMEOUT true).2.1))
          ∈ tr) := by
  refine ⟨rfl, ?_⟩
  cases hc : truthy (attempt_with_backoff w.envCache o CACHE_TIMEOUT true).2.2 with
  | true =>
    refine ⟨Event.probe :: Event.tierStart true CACHE_TIMEOUT ::
        (attempt_with_backoff w.envCache o CACHE_TIMEOUT true).1,
      (attempt_with_backoff w.envCache o CACHE_TIMEOUT true).2.2, ?_, by simp, ?_⟩
    · simp only [_get_element, test_if_cache_available, hprobe, Bool.and_self,
        if_true, hc]
    · intro hf
      exact absurd hf (by simp)
  | false =>
    cases hd : truthy (attempt_with_backoff w.envDisc o
        (t - (w.probeDur + (attempt_with_backoff w.envCache o CACHE_TIMEOUT true).2.1))
        false).2.2 with
    | true =>
      refine ⟨Event.probe :: Event.tierStart true CACHE_TIMEOUT ::
          (attempt_with_backoff w.envCache o CACHE_TIMEOUT true).1 ++
          Event.tierStart false
            (t - (w.probeDur + (attempt_with_backoff w.envCache o CACHE_TIMEOUT true).2.1)) ::
          (attempt_with_backoff w.envDisc o
            (t - (w.probeDur + (attempt_with_backoff w.envCache o CACHE_TIMEOUT true).2.1))
            false).1,
        (attempt_with_backoff w.envDisc o
          (t - (w.probeDur + (attempt_with_backoff w.envCache o CACHE_TIMEOUT true).2.1))
          false).2.2, ?_, by simp, fun _ => by simp⟩
      simp only [_get_element, test_if_cache_available, hprobe, Bool.and_self,
        if_true, hc, hd, Bool.false_eq_true, if_false]
    | false =>
      refine ⟨Event.probe :: Event.tierStart true CACHE_TIMEOUT ::
          (attempt_with_backoff w.envCache o CACHE_TIMEOUT true).1 ++
          Event.tierStart false
            (t - (w.probeDur + (attempt_with_backoff w.envCache o CACHE_TIMEOUT true).2.1)) ::
          (attempt_with_backoff w.envDisc o
            (t - (w.probeDur + (attempt_with_backoff w.envCache o CACHE_TIMEOUT true).2.1))
            false).1,
        RetrievalOutcome.notFound, ?_, by simp, fun _ => by simp⟩
      simp only [_get_element, test_if_cache_available, hprobe, Bool.and_self,
        if_true, hc, hd, Bool.false_eq_true, if_false]

/-- C8 witness: the budget flow at a concrete world whose cache tier
misses. -/
theorem c8_witness :
    w8.probeRes = .ok true ∧
    (CACHE_TIMEOUT = 5 ∧
    ∃ tr r, _get_element w8 true true 20 = .ok (tr, r) ∧
      Event.tierStart true CACHE_TIMEOUT ∈ tr ∧
      (truthy (attempt_with_backoff w8.envCache true CACHE_TIMEOUT true).2.2 = false →
        Event.tierStart false
          (20 - (w8.probeDur + (attempt_with_backoff w8.envCache true CACHE_TIMEOUT true).2.1))
          ∈ tr)) :=
  ⟨rfl, c8_tier_budgets w8 true 20 rfl⟩

/-- C9: when the probe does not raise and both tiers miss — whichever budget
the run hands the discovery tier — the caller receives the plain not-found
value (`None`), not an exception. -/
theorem c9_miss_returns_none (w : WorldEnv) (o u bres : Bool) (t : ℚ)
    (hprobe : w.probeRes = .ok bres)
    (hcache : truthy (attempt_with_backoff w.envCache o CACHE_TIMEOUT true).2.2 = false)
    (hdisc1 : truthy (attempt_with_backoff w.envDisc o
        (t - (w.probeDur + (attempt_with_backoff w.envCache o CACHE_TIMEOUT true).2.1))
        false).2.2 = false)
    (hdisc2 : truthy (attempt_with_backoff w.envDisc o (t - w.probeDur) false).2.2
      = false) :
    getElementResult w o u t = .ok .notFound := by
  cases hbu : bres && u with
  | false =>
    simp only [getElementResult, _get_element, test_if_cache_available, hprobe, hbu,
      Bool.false_eq_true, if_false, hdisc2, Except.map]
  | true =>
    simp only [getElementResult, _get_element, test_if_cache_available, hprobe, hbu,
      if_true, hcache, hdisc1, Bool.false_eq_true, if_false, Except.map]

/-- C9 witness: a concrete world where every request of either tier is a
miss; the caller sees `None`. -/
theorem c9_witness :
    w9.probeRes = .ok true ∧
    truthy (attempt_with_backoff w9.envCache false CACHE_TIMEOUT true).2.2 = false ∧
    truthy (attempt_with_backoff w9.envDisc false
        (15 - (w9.probeDur + (attempt_with_backoff w9.envCache false CACHE_TIMEOUT true).2.1))
        false).2.2 = false ∧
    truthy (attempt_with_backoff w9.envDisc false (15 - w9.probeDur) false).2.2 = false ∧
    getElementResult w9 false true 15 = .ok .notFound := by
  have hall : ∀ (c o : Bool) (b : ℚ),
      (attempt_with_backoff envFail o b c).2.2 = .notFound := by
    intro c o b
    rw [attempt_with_backoff,
      backoff_go_all_failure envFail c o b (fun k => rfl) TIMEOUT_INTERVAL 0 0]
  have h1 : truthy (attempt_with_backoff w9.envCache false CACHE_TIMEOUT true).2.2
      = false := by rw [show w9.envCache = envFail from rfl, hall]; rfl
  have h2 : truthy (attempt_with_backoff w9.envDisc false
      (15 - (w9.probeDur + (attempt_with_backoff w9.envCache false CACHE_TIMEOUT true).2.1))
      false).2.2 = false := by rw [show w9.envDisc = envFail from rfl, hall]; rfl
  have h3 : truthy (attempt_with_backoff w9.envDisc false (15 - w9.probeDur) false).2.2
      = false := by rw [show w9.envDisc = envFail from rfl, hall]; rfl
  exact ⟨rfl, h1, h2, h3, c9_miss_returns_none w9 false true true 15 rfl h1 h2 h3⟩
